import Mathlib

/-!
Verification of the live-stream monitoring and capture pipeline of
twspace-crawler.

Shallow embedding of:
* `SpaceWatcher.checkDynamicPlaylist` / `checkMasterPlaylist`
  (src/src/modules/SpaceWatcher.ts): watermark tracking over the dynamic
  playlist and the bounded-retry finalization check over the master playlist.
* `SpaceDownloader.download` / `download_audio` / `transcribe_audio` /
  `process_captions` (src/unnamed/part_002): the staged capture pipeline with
  its per-stage statuses and the caption keyword scan.

Conventions of the embedding:
* JavaScript promises that resolve are `some b`; a rejected promise (an
  exception escaping an `await`) is `none`.
* `undefined` numeric fields (`lastChunkIndex` before first assignment) are
  `Option Nat` with `none` for `undefined`; JS truthiness of a number is
  `jsFalsyNat` (`undefined` and `0` are falsy).
* Timer reschedules (`setTimeout(() => this.f(), ms)` with the fixed
  `APP_PLAYLIST_REFRESH_INTERVAL`) are represented by explicit `reschedule` /
  `rescheduleDynamic` results or events; the single-threaded event loop of
  Node is represented by the sequential order of events in a trace.
-/

/-- Stage status strings of `SpaceDownloader.system` (part_002 lines 123-128):
`'pending' | 'in-progress' | 'complete' | 'error'`. -/
inductive Status
  | pending
  | inProgress
  | complete
  | error
deriving DecidableEq, Repr

/-- A `CaptionPhrase` as constructed in part_002 line 343:
`new CaptionPhrase(node.data.start + ms_space_elapsed, text)` — a millisecond
timestamp and the (possibly marked-up) cue text. -/
structure CaptionPhrase where
  ms : Int
  text : String
deriving DecidableEq, Repr

/-- Maximal leading run of decimal digits of a character list. -/
def digitRun : List Char → List Char
  | [] => []
  | c :: cs => if c.isDigit then c :: digitRun cs else []

/-- Decimal value of a digit list. -/
def digitsToNat (ds : List Char) : Nat :=
  ds.foldl (fun a c => a * 10 + (c.toNat - 48)) 0

/-- Modelled from the spec: `PeriscopeUtil.getChunks` is not under src/ (only
its callers are). Per the spec, chunk URLs "embed a literal `chunk` token
immediately followed by a decimal sequence number"; this helper recognises
such a token starting at the head of the character list. -/
def chunkAt : List Char → Option Nat
  | 'c' :: 'h' :: 'u' :: 'n' :: 'k' :: rest =>
    if (digitRun rest).isEmpty then none else some (digitsToNat (digitRun rest))
  | _ => none

/-- Modelled from the spec: scan the playlist text position by position,
collecting the sequence number of every `chunk`-digits token. -/
def getChunksAux : List Char → List Nat
  | [] => []
  | c :: cs =>
    match chunkAt (c :: cs) with
    | some n => n :: getChunksAux cs
    | none => getChunksAux cs

/-- Modelled from the spec: `PeriscopeUtil.getChunks` — "pure function: given
playlist text, returns the set/list of integer chunk sequence numbers found in
chunk-URL tokens (format: a literal `chunk` prefix followed by digits)";
"empty or malformed playlist text yields an empty result, never an error". -/
def getChunks (text : String) : List Nat :=
  getChunksAux text.toList

/-- `Math.max(...chunkIndexes)` for a (nonempty, in the code) list of
nonnegative chunk indices. -/
def maxChunk (l : List Nat) : Nat :=
  l.foldl Nat.max 0

/-- JS truthiness test `!this.lastChunkIndex` for a numeric field that may be
`undefined` (`none`): both `undefined` and `0` are falsy. -/
def jsFalsyNat : Option Nat → Bool
  | none => true
  | some n => n == 0

/-- JS comparison `masterChunkSize >= this.lastChunkIndex`: comparison with
`undefined` is `false` (NaN semantics); otherwise ordinary `≥`. -/
def geWatermark (size : Nat) : Option Nat → Bool
  | none => false
  | some n => decide (n ≤ size)

/-- The mutable `SpaceWatcher` fields read and written by
`checkMasterPlaylist`: `lastChunkIndex` (`undefined` until first assigned) and
`chunkVerifyCount` (initialised to 0 at line 33). -/
structure VerifierState where
  lastChunkIndex : Option Nat
  chunkVerifyCount : Nat
deriving DecidableEq, Repr

/-- Outcome of one `checkMasterPlaylist` cycle: either `processDownload()` is
invoked and the cycle chain stops (`finalize`), or the check is rescheduled
via `checkMasterPlaylistWithTimer()` with the possibly updated state. -/
inductive MasterCheckResult
  | finalize
  | reschedule (s : VerifierState)
deriving DecidableEq, Repr

/-- `SpaceWatcher.checkMasterPlaylist` (SpaceWatcher.ts lines 244-262).
`fetched` is the result of `PeriscopeApi.getFinalPlaylist`: `some text` on
success, `none` when the fetch threw (the `catch` branch, which only logs).
On success the chunk count of the master playlist is compared against the
recorded watermark:
`canDownload = !lastChunkIndex || chunkVerifyCount > MAX_RETRY || masterChunkSize >= lastChunkIndex`;
if it holds, `processDownload()` runs and no timer is set; otherwise
`chunkVerifyCount++` and the check is rescheduled. On a fetch error the state
is untouched and the check is rescheduled. -/
def checkMasterPlaylist (maxRetry : Nat) (s : VerifierState)
    (fetched : Option String) : MasterCheckResult :=
  match fetched with
  | none => .reschedule s
  | some text =>
    if jsFalsyNat s.lastChunkIndex
        || decide (maxRetry < s.chunkVerifyCount)
        || geWatermark (getChunks text).length s.lastChunkIndex
    then .finalize
    else .reschedule { s with chunkVerifyCount := s.chunkVerifyCount + 1 }

/-- Iterated `checkMasterPlaylist` cycles: given the list of successive fetch
outcomes, returns `(some k, s)` if the k-th cycle (1-based) authorised
finalization, or `(none, s)` with the final state if every supplied cycle
rescheduled. -/
def runMaster (maxRetry : Nat) : VerifierState → List (Option String) →
    Option Nat × VerifierState
  | s, [] => (none, s)
  | s, f :: fs =>
    match checkMasterPlaylist maxRetry s f with
    | .finalize => (some 1, s)
    | .reschedule s' =>
      ((runMaster maxRetry s' fs).1.map (· + 1), (runMaster maxRetry s' fs).2)

/-- Watermark update of one successful `checkDynamicPlaylist` poll
(SpaceWatcher.ts lines 223-230): when the fetched playlist text contains chunk
indices, `this.lastChunkIndex = Math.max(...chunkIndexes)` overwrites the
field; when no indices are found the field is left unchanged. -/
def pollWatermark (wm : Option Nat) (text : String) : Option Nat :=
  if (getChunks text).isEmpty then wm else some (maxChunk (getChunks text))

/-- Outcome of the `axios.get` of the dynamic playlist: success with the
playlist text, an HTTP 404 (space ended / host disconnected), or any other
error. -/
inductive FetchOut
  | ok (data : String)
  | err404
  | errOther
deriving DecidableEq, Repr

/-- Observable events of one `checkDynamicPlaylist` cycle, in the order the
single-threaded event loop performs them. `previewStart`/`previewDone` bracket
the live preview capture (`downloadAudio(true)` and the `download` promise it
returns); `rescheduleDynamic` is `checkDynamicPlaylistWithTimer()`;
`handoffToMaster` is the call to `checkMasterPlaylist()` on a 404;
`logOnly` is an error path that only logs. -/
inductive DynEvent
  | setWatermark (n : Nat)
  | previewStart
  | previewDone
  | rescheduleDynamic
  | handoffToMaster
  | logOnly
deriving DecidableEq, Repr

/-- Environment of one `processLiveDownload` call: whether
`this.downloader` is currently set, whether `getSpaceMetadata()` succeeds,
and whether the refreshed metadata state is `RUNNING`. -/
structure DynEnv where
  downloaderExists : Bool
  metadataOk : Bool
  stateRunning : Bool
deriving DecidableEq, Repr

/-- Events of `processLiveDownload` (SpaceWatcher.ts lines 292-305) as awaited
from `checkDynamicPlaylist`: a metadata fetch failure is caught and only
logged; on `RUNNING` it `await`s `downloadAudio(true)`, which creates and runs
a `SpaceDownloader` only when `this.downloader` is not set (line 318:
`if ((!watcher.downloader) || (!live))`, with `live = true`) and otherwise
returns `undefined` immediately. -/
def processLiveDownloadEvents (env : DynEnv) : List DynEvent :=
  if !env.metadataOk then [.logOnly]
  else if env.stateRunning then
    if !env.downloaderExists then [.previewStart, .previewDone] else []
  else []

/-- One cycle of `SpaceWatcher.checkDynamicPlaylist` (SpaceWatcher.ts lines
216-242): on success, parse chunk indices; if any, overwrite the watermark
with their maximum and, when it is ≥ 1, `await this.processLiveDownload()`
(line 228) — only after that await resolves does control reach
`this.checkDynamicPlaylistWithTimer()` (line 241). On a 404 the cycle hands
off to `checkMasterPlaylist()` and returns without rescheduling the dynamic
check; on any other error it logs and reschedules. Returns the new watermark
and the event trace of the cycle. -/
def checkDynamicPlaylist (wm : Option Nat) (env : DynEnv) (fetch : FetchOut) :
    Option Nat × List DynEvent :=
  match fetch with
  | .ok data =>
    if (getChunks data).isEmpty then (wm, [.rescheduleDynamic])
    else
      (some (maxChunk (getChunks data)),
        .setWatermark (maxChunk (getChunks data)) ::
          ((if 1 ≤ maxChunk (getChunks data) then processLiveDownloadEvents env else [])
            ++ [.rescheduleDynamic]))
  | .err404 => (wm, [.handoffToMaster])
  | .errOther => (wm, [.logOnly, .rescheduleDynamic])

/-- `true` when the trace contains a `rescheduleDynamic` that precedes a later
`previewDone` — i.e. when the next dynamic poll is scheduled while the preview
capture is still running, the "non-blocking" ordering the spec describes. -/
def rescheduleBeforePreviewDone : List DynEvent → Bool
  | [] => false
  | .rescheduleDynamic :: es => es.contains .previewDone || rescheduleBeforePreviewDone es
  | _ :: es => rescheduleBeforePreviewDone es

/-- A compiled keyword rule of part_002 lines 116-121: each entry of the
module-level `keywords` array is `{ regexp: new RegExp(raw.join('|'), 'gi'),
format: fmt }`. The JS regex engine's matching is abstracted: `find text i`
is the first match of the pattern in `text` at or after UTF-16 index `i`,
returned as `(start, stop)` — `RegExpBuiltinExec` from `lastIndex = i`.
`replaceAll text` is `text.replaceAll(regexp, '__**' + format + '**__')`;
for a global regex `Symbol.replace` sets `lastIndex` to 0 before matching, so
its output depends on the text only, and its final failing exec leaves
`lastIndex = 0`. -/
structure KeywordRule where
  find : String → Nat → Option (Nat × Nat)
  replaceAll : String → String

/-- `RegExp.prototype.test` on a global regex (part_002 line 338:
`keyword.regexp.test(text)`): matching starts at the stored `lastIndex`; on
success `lastIndex` becomes the match end, on failure it is reset to 0. -/
def regexTest (k : KeywordRule) (text : String) (lastIndex : Nat) : Bool × Nat :=
  match k.find text lastIndex with
  | some se => (true, se.2)
  | none => (false, 0)

/-- One iteration of the `keywords.forEach` body (part_002 lines 337-342) on
one keyword: `test`, and on a hit `replaceAll` (which rewrites the text and
leaves the regex's `lastIndex` at 0). Returns the new text, the keyword's new
`lastIndex`, and whether `phrases_matched` was incremented. -/
def keywordStep (k : KeywordRule) (text : String) (li : Nat) : String × Nat × Bool :=
  match regexTest k text li with
  | (true, _) => (k.replaceAll text, 0, true)
  | (false, li2) => (text, li2, false)

/-- The whole `keywords.forEach` loop over one cue text, threading the
per-regex `lastIndex` list (the regexes live at module level, so their state
is shared across cues and across scans). Returns the marked-up text, the new
`lastIndex` list, and the number of keywords that hit. -/
def scanText : List KeywordRule → List Nat → String → String × List Nat × Nat
  | [], _, text => (text, [], 0)
  | k :: ks, lis, text =>
    ((scanText ks lis.tail (keywordStep k text (lis.headD 0)).1).1,
      (keywordStep k text (lis.headD 0)).2.1 ::
        (scanText ks lis.tail (keywordStep k text (lis.headD 0)).1).2.1,
      (if (keywordStep k text (lis.headD 0)).2.2 then 1 else 0) +
        (scanText ks lis.tail (keywordStep k text (lis.headD 0)).1).2.2)

/-- A parsed subtitle cue (`node.type === 'cue'` with `node.data.start`,
`node.data.end`, `node.data.text` in milliseconds). -/
structure Cue where
  startMs : Int
  endMs : Int
  text : String
deriving DecidableEq, Repr

/-- The noise characters stripped from a cue before matching (part_002 line
335: `text.replace(/[.,#!\^;:{}=_`~()]/g, '')`). -/
def noiseChars : List Char :=
  ['.', ',', '#', '!', Char.ofNat 94, ';', ':', Char.ofNat 123, Char.ofNat 125,
    '=', '_', Char.ofNat 96, Char.ofNat 126, '(', ')']

/-- Remove the non-text characters from a cue text (part_002 line 335). -/
def cleanText (s : String) : String :=
  ⟨s.toList.filter (fun c => !(noiseChars.contains c))⟩

/-- Processing of one cue (part_002 lines 333-349): clean the text, run every
keyword over it, and emit `new CaptionPhrase(node.data.start + ms_space_elapsed,
text)`. Returns the phrase, the new `lastIndex` list and the number of
keyword hits on this cue. -/
def processCue (ks : List KeywordRule) (elapsed : Int) (lis : List Nat)
    (cue : Cue) : CaptionPhrase × List Nat × Nat :=
  (⟨cue.startMs + elapsed, (scanText ks lis (cleanText cue.text)).1⟩,
    (scanText ks lis (cleanText cue.text)).2.1,
    (scanText ks lis (cleanText cue.text)).2.2)

/-- The scan over the whole cue stream of one caption artifact: local
`phrases` array, shared regex states, and the `phrases_matched` counter. -/
def scanCues (ks : List KeywordRule) (elapsed : Int) :
    List Nat → List Cue → List CaptionPhrase × List Nat × Nat
  | lis, [] => ([], lis, 0)
  | lis, cue :: cues =>
    ((processCue ks elapsed lis cue).1 ::
        (scanCues ks elapsed (processCue ks elapsed lis cue).2.1 cues).1,
      (scanCues ks elapsed (processCue ks elapsed lis cue).2.1 cues).2.1,
      (processCue ks elapsed lis cue).2.2 +
        (scanCues ks elapsed (processCue ks elapsed lis cue).2.1 cues).2.2)

/-- `ms_space_elapsed` (part_002 line 320): for a live capture with a positive
start time, the wall-clock offset since broadcast start, otherwise 0. -/
def msSpaceElapsed (live : Bool) (timeStarted now : Int) : Int :=
  if live && decide (0 < timeStarted) then now - timeStarted else 0

/-- The mutable `SpaceDownloader.system` record (part_002 lines 136-150 and
its initialisation at 163-177): one status per stage plus the resulting
phrase list. -/
structure SysState where
  ffmpeg : Status
  whisper : Status
  captions : Status
  phrases : List CaptionPhrase
deriving DecidableEq, Repr

/-- `system` as initialised in the constructor: every stage `'pending'`,
`phrases: []`. -/
def initSystem : SysState :=
  ⟨.pending, .pending, .pending, []⟩

/-- How a spawned external process ends: a `close` event with an exit code
(any code, zero or not), or an `error` event (the process could not be
spawned or killed). -/
inductive ProcExit
  | close (code : Int)
  | spawnFail
deriving DecidableEq, Repr

/-- How the subtitle parse stream ends: a `finish` event or an `error`
event. -/
inductive StreamEnd
  | finish
  | streamError
deriving DecidableEq, Repr

/-- The environment of one `download()` call: how each external interaction
turns out. Fields for stages that are never reached are simply unused. -/
structure PipelineEnv where
  ffmpegExit : ProcExit
  whisperStatOk : Bool
  whisperExit : ProcExit
  captionsStatOk : Bool
  captionsStream : StreamEnd
  cues : List Cue
deriving DecidableEq, Repr

/-- `SpaceDownloader.download_audio` (part_002 lines 207-261). The returned
promise resolves `true` on the process's `close` event — the exit `code`
argument is ignored and the stage is marked `'complete'` regardless — and
rejects (here `none`) on the `error` event after marking the stage
`'error'`. The trace lists the system state after each mutation. -/
def download_audio (s : SysState) (ex : ProcExit) :
    List SysState × SysState × Option Bool :=
  match ex with
  | .close _ =>
    ([{ s with ffmpeg := .inProgress }, { s with ffmpeg := .complete }],
      { s with ffmpeg := .complete }, some true)
  | .spawnFail =>
    ([{ s with ffmpeg := .inProgress }, { s with ffmpeg := .error }],
      { s with ffmpeg := .error }, none)

/-- `SpaceDownloader.transcribe_audio` (part_002 lines 263-312): the stage is
marked `'in-progress'`, then `stat` of the audio file; a missing file resets
the stage to `'pending'` and resolves `false`; otherwise the whisper process
is spawned, and on `close` (code again ignored) the stage completes and
resolves `true`, on `error` it is marked `'error'` and the promise rejects. -/
def transcribe_audio (s : SysState) (statOk : Bool) (ex : ProcExit) :
    List SysState × SysState × Option Bool :=
  if statOk then
    match ex with
    | .close _ =>
      ([{ s with whisper := .inProgress }, { s with whisper := .complete }],
        { s with whisper := .complete }, some true)
    | .spawnFail =>
      ([{ s with whisper := .inProgress }, { s with whisper := .error }],
        { s with whisper := .error }, none)
  else
    ([{ s with whisper := .inProgress }, { s with whisper := .pending }],
      { s with whisper := .pending }, some false)

/-- `SpaceDownloader.process_captions` (part_002 lines 314-372): the stage is
marked `'in-progress'`, then `stat` of the caption file; a missing file resets
the stage to `'pending'` and resolves `false` (system.phrases untouched);
otherwise the cue stream is scanned, and on `finish` the stage completes,
`system.phrases` is set to the scanned list only when at least one keyword
hit (`if (phrases_matched >= 1)`), and the promise resolves `true`; a stream
`error` marks the stage `'error'` and rejects. -/
def process_captions (ks : List KeywordRule) (lis : List Nat) (elapsed : Int)
    (s : SysState) (statOk : Bool) (se : StreamEnd) (cues : List Cue) :
    List SysState × SysState × Option Bool :=
  if statOk then
    match se with
    | .finish =>
      ([{ s with captions := .inProgress },
          { s with
            captions := .complete,
            phrases := if 1 ≤ (scanCues ks elapsed lis cues).2.2
              then (scanCues ks elapsed lis cues).1 else s.phrases }],
        { s with
          captions := .complete,
          phrases := if 1 ≤ (scanCues ks elapsed lis cues).2.2
            then (scanCues ks elapsed lis cues).1 else s.phrases },
        some true)
    | .streamError =>
      ([{ s with captions := .inProgress }, { s with captions := .error }],
        { s with captions := .error }, none)
  else
    ([{ s with captions := .inProgress }, { s with captions := .pending }],
      { s with captions := .pending }, some false)

/-- `SpaceDownloader.download` (part_002 lines 180-205): run each stage only
when its own status is `'pending'` and the previous stage's status is
`'complete'`; a rejected stage promise escapes the `await` and aborts the
call (`none`); otherwise the call resolves `true` exactly when the captions
stage ended `'complete'`. (The playlist-URL resolution and media-directory
creation that precede the stages perform no `system` mutation and are not
modelled.) The first component is the trace of the `system` states after each
mutation. -/
def download (ks : List KeywordRule) (lis : List Nat) (elapsed : Int)
    (s : SysState) (env : PipelineEnv) : List SysState × SysState × Option Bool :=
  match (if s.ffmpeg == .pending then download_audio s env.ffmpegExit
      else ([], s, some true)) with
  | (t1, s1, none) => (t1, s1, none)
  | (t1, s1, some _) =>
    match (if s1.whisper == .pending && s1.ffmpeg == .complete
        then transcribe_audio s1 env.whisperStatOk env.whisperExit
        else ([], s1, some true)) with
    | (t2, s2, none) => (t1 ++ t2, s2, none)
    | (t2, s2, some _) =>
      match (if s2.captions == .pending && s2.whisper == .complete
          then process_captions ks lis elapsed s2 env.captionsStatOk
            env.captionsStream env.cues
          else ([], s2, some true)) with
      | (t3, s3, none) => (t1 ++ t2 ++ t3, s3, none)
      | (t3, s3, some _) => (t1 ++ t2 ++ t3, s3, some (s3.captions == .complete))

/-! Helper lemmas about the finalization verifier. -/

theorem checkMaster_reschedule_of_some {maxRetry : Nat} {s s' : VerifierState}
    {text : String}
    (h : checkMasterPlaylist maxRetry s (some text) = .reschedule s') :
    s' = { s with chunkVerifyCount := s.chunkVerifyCount + 1 } ∧
      s.chunkVerifyCount ≤ maxRetry := by
  unfold checkMasterPlaylist at h
  by_cases hc : (jsFalsyNat s.lastChunkIndex
      || decide (maxRetry < s.chunkVerifyCount)
      || geWatermark (getChunks text).length s.lastChunkIndex) = true
  · simp [hc] at h
  · simp [hc] at h
    simp only [Bool.or_eq_true, decide_eq_true_eq, not_or] at hc
    exact ⟨h.symm, Nat.le_of_not_lt hc.1.2⟩

theorem runMaster_finalizes_aux (maxRetry : Nat) :
    ∀ (fs : List (Option String)) (s : VerifierState),
      (∀ f ∈ fs, f.isSome) →
      maxRetry + 2 ≤ fs.length + s.chunkVerifyCount →
      1 ≤ fs.length →
      (runMaster maxRetry s fs).1.isSome := by
  intro fs
  induction fs with
  | nil => intro s _ _ hone; simp at hone
  | cons f fs ih =>
    intro s hall hlen _
    have hf : f.isSome := hall f (List.mem_cons_self f fs)
    obtain ⟨t, rfl⟩ := Option.isSome_iff_exists.mp hf
    rcases hres : checkMasterPlaylist maxRetry s (some t) with _ | s'
    · simp [runMaster, hres]
    · obtain ⟨rfl, hcnt⟩ := checkMaster_reschedule_of_some hres
      have hall' : ∀ g ∈ fs, g.isSome := fun g hg => hall g (List.mem_cons_of_mem _ hg)
      have hlen' : maxRetry + 2 ≤ fs.length + (s.chunkVerifyCount + 1) := by
        simpa [Nat.add_assoc, Nat.add_comm, Nat.add_left_comm] using hlen
      have hone' : 1 ≤ fs.length := by
        by_contra hno
        have : fs.length = 0 := by omega
        omega
      have := ih { s with chunkVerifyCount := s.chunkVerifyCount + 1 } hall' hlen' hone'
      simp [runMaster, hres]
      simpa using this

/-- Claim C2, counterexample. The claim states that with `maxRetries = 1`, a
watermark of 4, and a master playlist always reporting 3 chunks, the verifier
retries exactly once and authorizes finalization on the second check, and in
general terminates within `maxRetries + 1` cycles. On the code, after two
successful fetches of a 3-chunk master playlist the verifier has still not
authorized finalization (`chunkVerifyCount` is 0 on the first failing check
and 1 on the second, and `1 > 1` is false); it authorizes only on the third
check. -/
theorem verifier_budget_counterexample :
    (runMaster 1 ⟨some 4, 0⟩
      [some "chunk1chunk2chunk3", some "chunk1chunk2chunk3"]).1 = none ∧
    (runMaster 1 ⟨some 4, 0⟩
      [some "chunk1chunk2chunk3", some "chunk1chunk2chunk3",
        some "chunk1chunk2chunk3"]).1 = some 3 := by
  constructor <;> rfl

/-- Claim C2, amended: for every run of the verifier with retry maximum
`maxRetry`, verification terminates within `maxRetry + 2` poll cycles whose
master-playlist fetch succeeds, regardless of the playlists' chunk counts
(finalization is authorized unconditionally once the recorded retry count
exceeds `maxRetry`); with `maxRetry = 1`, a watermark of 4 and a master
playlist always reporting 3 chunks, the verifier retries twice and authorizes
finalization on the third check. -/
theorem verifier_finalizes_within_budget (maxRetry : Nat) (wm : Option Nat)
    (fs : List (Option String)) (hall : ∀ f ∈ fs, f.isSome)
    (hlen : fs.length = maxRetry + 2) :
    (runMaster maxRetry ⟨wm, 0⟩ fs).1.isSome ∧
    (runMaster 1 ⟨some 4, 0⟩
      [some "chunk1chunk2chunk3", some "chunk1chunk2chunk3",
        some "chunk1chunk2chunk3"]).1 = some 3 := by
  refine ⟨?_, by rfl⟩
  exact runMaster_finalizes_aux maxRetry fs ⟨wm, 0⟩ hall (by omega) (by omega)

/-- Claim C2, witness for `verifier_finalizes_within_budget`. -/
theorem verifier_finalizes_within_budget_witness :
    (runMaster 0 ⟨some 4, 0⟩ [some "", some ""]).1.isSome ∧
    (runMaster 1 ⟨some 4, 0⟩
      [some "chunk1chunk2chunk3", some "chunk1chunk2chunk3",
        some "chunk1chunk2chunk3"]).1 = some 3 :=
  verifier_finalizes_within_budget 0 (some 4) [some "", some ""]
    (by decide) (by decide)

/-- Claim C3: on every verification cycle whose master-playlist fetch
succeeds, the verifier authorizes finalization if and only if no watermark was
ever recorded, or the recorded retry count exceeds the maximum, or the master
chunk count is at least the watermark; otherwise it increments the retry
counter and reschedules itself. (When a watermark of 0 is recorded the code's
separate JS-falsiness test fires, but the chunk-count disjunct `0 ≤ count` is
then also true, so the two conditions agree.) -/
theorem master_finalize_iff (maxRetry : Nat) (s : VerifierState)
    (text : String) :
    (checkMasterPlaylist maxRetry s (some text) = .finalize ↔
      (s.lastChunkIndex = none ∨ maxRetry < s.chunkVerifyCount ∨
        s.lastChunkIndex.getD 0 ≤ (getChunks text).length)) ∧
    (¬ (s.lastChunkIndex = none ∨ maxRetry < s.chunkVerifyCount ∨
        s.lastChunkIndex.getD 0 ≤ (getChunks text).length) →
      checkMasterPlaylist maxRetry s (some text) =
        .reschedule { s with chunkVerifyCount := s.chunkVerifyCount + 1 }) := by
  obtain ⟨wm, cnt⟩ := s
  rcases wm with _ | n
  · simp [checkMasterPlaylist, jsFalsyNat]
  · rcases n with _ | m
    · simp [checkMasterPlaylist, jsFalsyNat]
    · by_cases h1 : maxRetry < cnt <;>
        by_cases h2 : m + 1 ≤ (getChunks text).length <;>
        simp [checkMasterPlaylist, jsFalsyNat, geWatermark, h1, h2]

/-- Claim C3, witness for `master_finalize_iff`. -/
theorem master_finalize_iff_witness :
    checkMasterPlaylist 2 ⟨some 5, 0⟩ (some "chunk1") =
      .reschedule ⟨some 5, 1⟩ :=
  (master_finalize_iff 2 ⟨some 5, 0⟩ "chunk1").2 (by decide)

/-- Claim C10: when the master-playlist fetch fails, the catch branch only
logs and reschedules — the retry counter and watermark are unchanged — and
under persistently failing fetches the verifier reschedules without bound,
never authorizing finalization and never consuming retry budget. -/
theorem master_fetch_error_preserves_state (maxRetry : Nat)
    (s : VerifierState) (n : Nat) :
    checkMasterPlaylist maxRetry s none = .reschedule s ∧
    runMaster maxRetry s (List.replicate n none) = (none, s) := by
  refine ⟨rfl, ?_⟩
  induction n with
  | zero => rfl
  | succ k ih => simp [List.replicate_succ, runMaster, checkMasterPlaylist, ih]

/-- Claim C4, counterexample. The claim states the watermark is monotonically
non-decreasing across successive successful polls for all playlist contents,
including ones whose maximum chunk index is lower than a previously observed
maximum. On the code, `this.lastChunkIndex = Math.max(...chunkIndexes)`
overwrites the field unconditionally: a poll seeing `chunk5` followed by a
poll seeing `chunk3` drops the watermark from 5 to 3. -/
theorem watermark_decreases :
    pollWatermark none "chunk5" = some 5 ∧
    pollWatermark (pollWatermark none "chunk5") "chunk3" = some 3 ∧
    (pollWatermark (pollWatermark none "chunk5") "chunk3").getD 0 <
      (pollWatermark none "chunk5").getD 0 := by
  refine ⟨rfl, rfl, ?_⟩
  decide

/-- Claim C4, amended: across successive successful polls of the dynamic
playlist, the watermark equals the maximum chunk index of the latest poll that
found any indices (polls finding none leave it unchanged); consequently it is
non-decreasing provided the maximum chunk index of every poll that finds
indices is at least the previously recorded watermark — the code does not
itself enforce monotonicity against a shrinking playlist. -/
theorem watermark_monotone_under_growth (wm : Option Nat) (text : String)
    (h : getChunks text ≠ [] → wm.getD 0 ≤ maxChunk (getChunks text)) :
    wm.getD 0 ≤ (pollWatermark wm text).getD 0 ∧
    (getChunks text ≠ [] →
      pollWatermark wm text = some (maxChunk (getChunks text))) := by
  by_cases hne : getChunks text = []
  · simp [pollWatermark, hne]
  · have hf : (getChunks text).isEmpty = false := by
      simpa [List.isEmpty_iff] using hne
    simp [pollWatermark, hf, h hne]

/-- Claim C4, witness for `watermark_monotone_under_growth`. -/
theorem watermark_monotone_under_growth_witness :
    (some 2 : Option Nat).getD 0 ≤ (pollWatermark (some 2) "chunk7").getD 0 ∧
    (getChunks "chunk7" ≠ [] →
      pollWatermark (some 2) "chunk7" = some (maxChunk (getChunks "chunk7"))) :=
  watermark_monotone_under_growth (some 2) "chunk7" (by decide)

/-! Helper lemmas about the caption scan: after each `forEach` body the
regex's `lastIndex` is 0 again (a failed `test` resets it; a successful
`test` is immediately followed by `replaceAll`, whose final failing internal
exec resets it), so the shared module-level regex state is all-zero at every
cue boundary. -/

theorem keywordStep_lastIndex (k : KeywordRule) (text : String) (li : Nat) :
    (keywordStep k text li).2.1 = 0 := by
  unfold keywordStep regexTest
  rcases k.find text li with _ | se <;> rfl

theorem scanText_lastIndex (ks : List KeywordRule) (lis : List Nat)
    (text : String) :
    (scanText ks lis text).2.1 = List.replicate ks.length 0 := by
  induction ks generalizing lis text with
  | nil => rfl
  | cons k ks ih =>
    simp [scanText, keywordStep_lastIndex, ih, List.replicate_succ]

theorem processCue_lastIndex (ks : List KeywordRule) (elapsed : Int)
    (lis : List Nat) (cue : Cue) :
    (processCue ks elapsed lis cue).2.1 = List.replicate ks.length 0 := by
  simp [processCue, scanText_lastIndex]

theorem scanCues_replicate (ks : List KeywordRule) (elapsed : Int)
    (cues : List Cue) :
    scanCues ks elapsed (List.replicate ks.length 0) cues =
      (cues.map (fun c =>
          (processCue ks elapsed (List.replicate ks.length 0) c).1),
        List.replicate ks.length 0,
        (cues.map (fun c =>
          (processCue ks elapsed (List.replicate ks.length 0) c).2.2)).sum) := by
  induction cues with
  | nil => rfl
  | cons cue cues ih =>
    simp only [scanCues, processCue_lastIndex, ih, List.map_cons, List.sum_cons]

/-- Claim C7: the caption scanner is idempotent. The scan threads the shared,
module-level global regexes' `lastIndex` state (part_002 lines 116-121 build
them once with the `g` flag); because every `forEach` body leaves that state
at 0, a second scan of the same cue sequence with the same elapsed-time
offset starts from the same all-zero state the first scan started from, and
produces the identical phrase list (same timestamps, same canonical-tag
substitutions), the identical regex state and the identical match count. -/
theorem caption_scan_idempotent (ks : List KeywordRule) (elapsed : Int)
    (cues : List Cue) :
    scanCues ks elapsed
        (scanCues ks elapsed (List.replicate ks.length 0) cues).2.1 cues =
      scanCues ks elapsed (List.replicate ks.length 0) cues := by
  have h : (scanCues ks elapsed (List.replicate ks.length 0) cues).2.1 =
      List.replicate ks.length 0 := by
    rw [scanCues_replicate]
  rw [h]

/-- Claim C6: when the caption artifact exists and the cue stream finishes,
the caption-scan stage completes, `download()` resolves `true` (an empty
phrase list is still an overall success), and the resulting job phrase list is
the full ordered list of `CaptionPhrase` entries — one per cue, produced by
the per-cue scan — when at least one keyword hit anywhere
(`phrases_matched >= 1`), and the empty list when none hit. -/
theorem caption_scan_full_or_empty (ks : List KeywordRule) (elapsed : Int)
    (cues : List Cue) (code1 code2 : Int) :
    (download ks (List.replicate ks.length 0) elapsed initSystem
        ⟨.close code1, true, .close code2, true, .finish, cues⟩).2.2 =
      some true ∧
    (download ks (List.replicate ks.length 0) elapsed initSystem
        ⟨.close code1, true, .close code2, true, .finish, cues⟩).2.1.captions =
      .complete ∧
    (download ks (List.replicate ks.length 0) elapsed initSystem
        ⟨.close code1, true, .close code2, true, .finish, cues⟩).2.1.phrases =
      (if 1 ≤ (scanCues ks elapsed (List.replicate ks.length 0) cues).2.2
        then (scanCues ks elapsed (List.replicate ks.length 0) cues).1
        else []) ∧
    (scanCues ks elapsed (List.replicate ks.length 0) cues).1 =
      cues.map (fun c =>
        (processCue ks elapsed (List.replicate ks.length 0) c).1) := by
  refine ⟨rfl, rfl, rfl, ?_⟩
  rw [scanCues_replicate]

/-- Claim C9: when the caption artifact file does not exist at scan time, the
`stat` promise rejects into the `.catch` branch, which resets the stage to
`'pending'` and resolves `false` — `download()` resolves to a boolean result
(`false`, no exception propagates) and the job phrase list is empty. -/
theorem caption_artifact_missing_soft (ks : List KeywordRule) (lis : List Nat)
    (elapsed : Int) (cues : List Cue) (se : StreamEnd) (code1 code2 : Int) :
    (download ks lis elapsed initSystem
        ⟨.close code1, true, .close code2, false, se, cues⟩).2.2 =
      some false ∧
    (download ks lis elapsed initSystem
        ⟨.close code1, true, .close code2, false, se, cues⟩).2.1.phrases =
      [] ∧
    (download ks lis elapsed initSystem
        ⟨.close code1, true, .close code2, false, se, cues⟩).2.1.captions =
      .pending := by
  exact ⟨rfl, rfl, rfl⟩

/-- Claim C1, counterexample. The claim states that an abnormal (non-zero)
exit of the extraction process sets the stage to ERROR, makes `download()`
return a failure, and prevents transcription. On the code, the `close`
handler of the ffmpeg child process (part_002 lines 250-255) ignores the exit
code: with exit code 1 the extraction stage is marked `complete`, the
transcription stage is invoked (reaches `in-progress` in the trace), and the
whole pipeline can even resolve `true`. -/
theorem extraction_exit_code_ignored :
    (download [] [] 0 initSystem
        ⟨.close 1, true, .close 0, true, .finish, []⟩).2.1.ffmpeg =
      .complete ∧
    ¬ (download [] [] 0 initSystem
        ⟨.close 1, true, .close 0, true, .finish, []⟩).2.1.ffmpeg = .error ∧
    (∃ t ∈ (download [] [] 0 initSystem
        ⟨.close 1, true, .close 0, true, .finish, []⟩).1,
      t.whisper = .inProgress) ∧
    (download [] [] 0 initSystem
        ⟨.close 1, true, .close 0, true, .finish, []⟩).2.2 = some true := by
  refine ⟨rfl, by decide, ?_, rfl⟩
  exact ⟨⟨.complete, .inProgress, .pending, []⟩, by decide, rfl⟩

/-- Claim C1, amended: the extraction process's exit status is ignored — any
`close` marks the stage COMPLETE and transcription proceeds; only the child
process's `error` event (the process could not be spawned) sets the
extraction stage to ERROR, and in that case `download()` rejects (the promise
rejection escapes, no `(false, [])` result is returned) and the transcription
stage is never invoked: it stays `pending` at every point of the trace. -/
theorem extraction_spawn_error_aborts (ks : List KeywordRule) (lis : List Nat)
    (elapsed : Int) (env : PipelineEnv) (h : env.ffmpegExit = .spawnFail) :
    (download ks lis elapsed initSystem env).2.1.ffmpeg = .error ∧
    (download ks lis elapsed initSystem env).2.2 = none ∧
    ∀ t ∈ (download ks lis elapsed initSystem env).1, t.whisper = .pending := by
  obtain ⟨fe, wst, we, cst, cse, cues⟩ := env
  cases fe with
  | close c => simp at h
  | spawnFail =>
    refine ⟨rfl, rfl, ?_⟩
    intro t ht
    have ht2 : t ∈ [{ initSystem with ffmpeg := Status.inProgress },
        { initSystem with ffmpeg := Status.error }] := ht
    rcases List.mem_cons.mp ht2 with rfl | h2
    · rfl
    · rcases List.mem_cons.mp h2 with rfl | h3
      · rfl
      · simp at h3

/-- Claim C1, witness for `extraction_spawn_error_aborts`. -/
theorem extraction_spawn_error_aborts_witness :
    (download [] [] 0 initSystem
        ⟨.spawnFail, true, .close 0, true, .finish, []⟩).2.1.ffmpeg = .error ∧
    (download [] [] 0 initSystem
        ⟨.spawnFail, true, .close 0, true, .finish, []⟩).2.2 = none ∧
    ∀ t ∈ (download [] [] 0 initSystem
        ⟨.spawnFail, true, .close 0, true, .finish, []⟩).1,
      t.whisper = .pending :=
  extraction_spawn_error_aborts [] [] 0
    ⟨.spawnFail, true, .close 0, true, .finish, []⟩ rfl

/-- The stage-ordering invariant of claim C5: the transcription stage is
`in-progress` only while the extraction stage is `complete`, and the
caption-scan stage is `in-progress` only while the transcription stage is
`complete`. -/
def StageInv (s : SysState) : Prop :=
  (s.whisper = .inProgress → s.ffmpeg = .complete) ∧
  (s.captions = .inProgress → s.whisper = .complete)

/-- Executable check of `StageInv`. -/
def stageInvB (s : SysState) : Bool :=
  (!(s.whisper == Status.inProgress) || s.ffmpeg == Status.complete) &&
  (!(s.captions == Status.inProgress) || s.whisper == Status.complete)

theorem stageInv_iff (s : SysState) : StageInv s ↔ stageInvB s = true := by
  simp only [StageInv, stageInvB, Bool.and_eq_true, Bool.or_eq_true,
    Bool.not_eq_true', beq_iff_eq, beq_eq_false_iff_ne, ne_eq]
  constructor
  · rintro ⟨h1, h2⟩
    constructor
    · by_cases hw : s.whisper = Status.inProgress
      · exact Or.inr (h1 hw)
      · exact Or.inl hw
    · by_cases hc : s.captions = Status.inProgress
      · exact Or.inr (h2 hc)
      · exact Or.inl hc
  · rintro ⟨h1, h2⟩
    exact ⟨fun hw => h1.resolve_left (by simp [hw]),
      fun hc => h2.resolve_left (by simp [hc])⟩

/-- Claim C5: for every capture job (a fresh `SpaceDownloader`, all stages
`pending`) and every environment of external outcomes, every state reachable
during `download()` — the initial state and the state after every mutation of
`system` — satisfies the stage-ordering invariant: transcription never
reaches IN_PROGRESS while extraction is not COMPLETE, and the caption scan
never reaches IN_PROGRESS while transcription is not COMPLETE. -/
theorem stage_order_invariant (ks : List KeywordRule) (lis : List Nat)
    (elapsed : Int) (env : PipelineEnv) :
    ∀ t ∈ initSystem :: (download ks lis elapsed initSystem env).1,
      StageInv t := by
  obtain ⟨fe, wst, we, cst, cse, cues⟩ := env
  have hall : (initSystem ::
      (download ks lis elapsed initSystem ⟨fe, wst, we, cst, cse, cues⟩).1).all
        stageInvB = true := by
    rcases fe with c1 | _ <;> rcases wst <;> rcases we with c2 | _ <;>
      rcases cst <;> rcases cse <;>
      simp [download, download_audio, transcribe_audio, process_captions,
        initSystem, stageInvB]
  intro t ht
  exact (stageInv_iff t).mpr (List.all_eq_true.mp hall t ht)

/-- Claim C5, witness for `stage_order_invariant`. -/
theorem stage_order_invariant_witness : StageInv initSystem :=
  stage_order_invariant [] [] 0 ⟨.close 0, true, .close 0, true, .finish, []⟩
    initSystem (List.mem_cons_self _ _)

/-- Claim C8, counterexample. The claim states the live preview capture is
non-blocking: the dynamic-playlist polling loop "continues to reschedule at
the fixed interval while the preview runs", i.e. the reschedule precedes the
preview's completion. On the code, `checkDynamicPlaylist` executes
`await this.processLiveDownload()` (SpaceWatcher.ts line 228), which in turn
`await`s `downloadAudio(true)` and the whole preview `download()` promise, so
on a poll that finds `chunk1` with no downloader yet, the cycle's event order
is watermark update, preview start, preview completion, and only then the
reschedule — the reschedule never precedes the preview's completion. -/
theorem preview_blocks_polling :
    (checkDynamicPlaylist none ⟨false, true, true⟩ (.ok "chunk1")).2 =
      [.setWatermark 1, .previewStart, .previewDone, .rescheduleDynamic] ∧
    rescheduleBeforePreviewDone
      (checkDynamicPlaylist none ⟨false, true, true⟩ (.ok "chunk1")).2 =
      false ∧
    DynEvent.previewDone ∈
      (checkDynamicPlaylist none ⟨false, true, true⟩ (.ok "chunk1")).2 := by
  refine ⟨rfl, rfl, ?_⟩
  decide

/-- Claim C8, amended: on every successful poll of the dynamic playlist that
finds chunk indices (with maximum at least 1), the monitor sets the watermark
to their maximum, and a live preview capture is attempted — started exactly
when the metadata refresh succeeds, the space is still RUNNING, and no
downloader object already exists (not only the first time the watermark
reaches 1). The preview is awaited, not fire-and-forget: the poll's
reschedule is the last event of the cycle and never occurs while the preview
runs. -/
theorem preview_capture_trace (wm : Option Nat) (env : DynEnv) (data : String)
    (hne : (getChunks data).isEmpty = false)
    (h1 : 1 ≤ maxChunk (getChunks data)) :
    (checkDynamicPlaylist wm env (.ok data)).1 =
      some (maxChunk (getChunks data)) ∧
    ((checkDynamicPlaylist wm env (.ok data)).2).getLast? =
      some .rescheduleDynamic ∧
    rescheduleBeforePreviewDone
      (checkDynamicPlaylist wm env (.ok data)).2 = false ∧
    (DynEvent.previewStart ∈ (checkDynamicPlaylist wm env (.ok data)).2 ↔
      env.metadataOk = true ∧ env.stateRunning = true ∧
        env.downloaderExists = false) := by
  obtain ⟨de, mo, sr⟩ := env
  rcases de <;> rcases mo <;> rcases sr <;>
    simp [checkDynamicPlaylist, processLiveDownloadEvents, hne, h1,
      rescheduleBeforePreviewDone]

/-- Claim C8, witness for `preview_capture_trace`. -/
theorem preview_capture_trace_witness :
    (checkDynamicPlaylist none ⟨true, true, true⟩ (.ok "chunk2")).1 =
      some (maxChunk (getChunks "chunk2")) ∧
    ((checkDynamicPlaylist none ⟨true, true, true⟩ (.ok "chunk2")).2).getLast? =
      some .rescheduleDynamic ∧
    rescheduleBeforePreviewDone
      (checkDynamicPlaylist none ⟨true, true, true⟩ (.ok "chunk2")).2 = false ∧
    (DynEvent.previewStart ∈
        (checkDynamicPlaylist none ⟨true, true, true⟩ (.ok "chunk2")).2 ↔
      (⟨true, true, true⟩ : DynEnv).metadataOk = true ∧
        (⟨true, true, true⟩ : DynEnv).stateRunning = true ∧
        (⟨true, true, true⟩ : DynEnv).downloaderExists = false) :=
  preview_capture_trace none ⟨true, true, true⟩ "chunk2" (by decide) (by decide)
